import Mathlib

/-!
Verification development for the selfie-verification-system repository.

The development shallow-embeds the code that the checked properties talk
about: the Express route handlers in server/routes.ts (status derivation,
row insertion, the PATCH status update), the zod ID-number schema in
client/src/components/verification-form.tsx, and the webcam capture
pipeline in client/src/components/webcam-capture.tsx (glasses scoring,
image-quality scoring, liveness tracking, the capture gate, image
compression).

Modelling conventions:
- JavaScript numbers are modelled exactly over the rationals; Math.abs is
  modelled by an explicit jsAbs function.
- JSON values are modelled by a small inductive type; array contents are
  never inspected by the embedded code, so arrays are a single opaque
  constructor.
- The abstract canvas JPEG and PNG encoders of compressImage are modelled
  as functions from a quality level in tenths to the length of the base64
  payload they produce; the code only ever observes those lengths.
- Database effects are modelled by the list of rows an invocation inserts.
-/

/-- Status column of the verifications table (enum pending/approved/rejected). -/
inductive VStatus where
  | pending
  | approved
  | rejected
deriving DecidableEq

/-- A JSON value as probed by the route handlers. Array contents are never
read by the embedded code, so arrays are opaque. Numbers are modelled as
integers; no checked property depends on fractional JSON numbers. -/
inductive Json where
  | null
  | bool (b : Bool)
  | str (s : String)
  | num (n : Int)
  | arr
  | obj (fields : List (String × Json))

/-- Strict-equality comparison against the two literal values the handler
compares `verified` with; JavaScript === on the boolean true and on the
string "TRUE". -/
def Json.eqLit : Json → Json → Bool
  | .bool a, .bool b => a == b
  | .str a, .str b => a == b
  | .num a, .num b => a == b
  | .null, .null => true
  | _, _ => false

/-- First field with the given name, as JavaScript property access. -/
def Json.getField? : Json → String → Option Json
  | .obj fields, name => (fields.find? (fun p => p.1 == name)).map (fun p => p.2)
  | _, _ => none

/-- The JavaScript test `name in value` restricted to JSON values. -/
def Json.hasField (j : Json) (name : String) : Bool :=
  (j.getField? name).isSome

/-- JavaScript truthiness of a JSON value. -/
def jsTruthy : Json → Bool
  | .null => false
  | .bool b => b
  | .str s => s != ""
  | .num n => n != 0
  | .arr => true
  | .obj _ => true

/-- The JavaScript test `typeof v === "object"` on a JSON value. -/
def jsIsObjectType : Json → Bool
  | .null => true
  | .arr => true
  | .obj _ => true
  | _ => false

/-- Guard of the first branch of the status derivation in POST /api/verify
(routes.ts): responseData is a truthy object whose `data` field is a truthy
object carrying a `verified` field. -/
def hasVerifiedShape (j : Json) : Bool :=
  jsTruthy j && jsIsObjectType j && j.hasField "data" &&
    (let d := (j.getField? "data").getD Json.null
     jsTruthy d && jsIsObjectType d && d.hasField "verified")

/-- The value of responseData.data.verified read by the first branch. -/
def verifiedValue (j : Json) : Json :=
  (((j.getField? "data").getD Json.null).getField? "verified").getD Json.null

/-- Guard of the second branch: responseData is a truthy object carrying a
`responseCode` field. -/
def hasResponseCodeShape (j : Json) : Bool :=
  jsTruthy j && jsIsObjectType j && j.hasField "responseCode"

/-- Status derivation from the external API response in POST /api/verify
(routes.ts lines 503-542): the data.verified shape wins, then the
responseCode table, then the default "pending". -/
def deriveVerificationStatus (responseData : Json) : VStatus :=
  if hasVerifiedShape responseData then
    let verified := verifiedValue responseData
    if verified.eqLit (Json.str "TRUE") || verified.eqLit (Json.bool true) then
      VStatus.approved
    else
      VStatus.rejected
  else if hasResponseCodeShape responseData then
    match (responseData.getField? "responseCode").getD Json.null with
    | Json.str "00" => VStatus.approved
    | Json.str "01" => VStatus.rejected
    | Json.str "02" => VStatus.rejected
    | Json.str "03" => VStatus.rejected
    | Json.str "04" => VStatus.rejected
    | _ => VStatus.pending
  else
    VStatus.pending

/-- One-level textual rendering of a JSON value, standing in for
JSON.stringify when the handler stores the raw response body. No checked
property reads this text back, so nested values are abbreviated. -/
def Json.stringifyShallow : Json → String
  | .null => "null"
  | .bool true => "true"
  | .bool false => "false"
  | .str s => "\"" ++ s ++ "\""
  | .num n => toString n
  | .arr => "[...]"
  | .obj _ => "\x7b...\x7d"

/-- A row of the verifications table as inserted or updated by routes.ts
(the serial id and timestamp are managed by the database and omitted). -/
structure VerificationRow where
  userId : Nat
  merchantId : String
  pinNumber : String
  imageData : Option String
  status : VStatus
  response : Option String
deriving DecidableEq

/-- The includes-check of the PATCH handler, combined with the column enum:
only "pending", "approved" and "rejected" parse to a status. -/
def parseVStatus : String → Option VStatus
  | "pending" => some VStatus.pending
  | "approved" => some VStatus.approved
  | "rejected" => some VStatus.rejected
  | _ => none

/-- Textual form of a status, as it appears in a PATCH request body. -/
def vstatusToString : VStatus → String
  | VStatus.pending => "pending"
  | VStatus.approved => "approved"
  | VStatus.rejected => "rejected"

/-- The JavaScript expression `response || null`: empty or absent free-text
notes are stored as null. -/
def jsOrNull : Option String → Option String
  | some s => if s == "" then none else some s
  | none => none

/-- Outcome of the PATCH /api/verifications/:id handler. -/
inductive PatchResult where
  | unauthorized
  | badRequest
  | notFound
  | updated (v : VerificationRow)
deriving DecidableEq

/-- PATCH /api/verifications/:id (routes.ts lines 278-310): requires an
authenticated administrator, validates the requested status against the
fixed list, then unconditionally overwrites the status and response of the
addressed record when it exists. -/
def patchVerification (isAuthenticatedAdmin : Bool) (status : String)
    (response : Option String) (record : Option VerificationRow) : PatchResult :=
  if !isAuthenticatedAdmin then
    PatchResult.unauthorized
  else
    match parseVStatus status with
    | none => PatchResult.badRequest
    | some st =>
      match record with
      | none => PatchResult.notFound
      | some v => PatchResult.updated { v with status := st, response := jsOrNull response }

/-- Request data reaching the POST /api/verify handler. Absent body fields
are none; falsy empty strings are modelled as the empty string. -/
structure VerifyRequest where
  authenticated : Bool
  userId : Nat
  pinNumber : Option String
  imageData : Option String
deriving DecidableEq

/-- Outcome of the awaited fetch to the external verification API together
with the awaited body parse: either a response whose JSON body was read
(ok mirrors response.ok), or a rejection thrown by fetch or by json(). -/
inductive FetchOutcome where
  | response (ok : Bool) (httpStatus : Nat) (body : Json)
  | thrown

/-- Observable outcome of one POST /api/verify invocation: the HTTP status
returned to the caller and the list of rows inserted into verifications. -/
structure VerifyOutcome where
  httpStatus : Nat
  insertedRows : List VerificationRow

/-- The fixed merchant key constant of routes.ts. -/
def merchantKey : String := "5ce32d6e-2140-413a-935d-dbbb74c65439"

/-- The JavaScript String.trim: strip leading and trailing whitespace. -/
def jsTrim (s : String) : String :=
  String.mk (((s.data.dropWhile Char.isWhitespace).reverse.dropWhile Char.isWhitespace).reverse)

/-- POST /api/verify (routes.ts lines 312-617, current variant): input
validation, the external call, status derivation, and the single insert.
A thrown fetch or body parse lands in the outer catch, which returns 500
without reaching the insert. -/
def postVerify (req : VerifyRequest) (fetchResult : FetchOutcome) : VerifyOutcome :=
  if !req.authenticated then
    { httpStatus := 401, insertedRows := [] }
  else
    match req.pinNumber with
    | none => { httpStatus := 400, insertedRows := [] }
    | some pin =>
      if pin == "" || jsTrim pin == "" then
        { httpStatus := 400, insertedRows := [] }
      else
        match req.imageData with
        | none => { httpStatus := 400, insertedRows := [] }
        | some imageData =>
          if imageData == "" then
            { httpStatus := 400, insertedRows := [] }
          else if imageData.length < 1000 then
            { httpStatus := 422, insertedRows := [] }
          else
            match fetchResult with
            | FetchOutcome.thrown => { httpStatus := 500, insertedRows := [] }
            | FetchOutcome.response ok upstreamStatus body =>
              let verificationStatus := deriveVerificationStatus body
              let row : VerificationRow :=
                { userId := req.userId
                  merchantId := merchantKey
                  pinNumber := pin
                  imageData := if imageData.length > 0 then some imageData else none
                  status := verificationStatus
                  response := some body.stringifyShallow }
              if !ok then
                { httpStatus := upstreamStatus, insertedRows := [row] }
              else
                { httpStatus := 200, insertedRows := [row] }

/-- The input-validation gauntlet of POST /api/verify, in the order the
handler runs it: authentication, a nonempty PIN, a nonempty image, and the
1000-character minimum image length. -/
def passesVerifyValidation (req : VerifyRequest) : Bool :=
  req.authenticated &&
    (match req.pinNumber with
     | some pin => !(pin == "") && !(jsTrim pin == "")
     | none => false) &&
    (match req.imageData with
     | some imageData => !(imageData == "") && !(imageData.length < 1000)
     | none => false)

/-- Tail of the strict Ghana-card regex after the literal "GHA-": eight
digits, a hyphen, one digit, end of string. -/
def ghanaTail (rest : List Char) : Bool :=
  ((rest.take 8).length == 8) && (rest.take 8).all Char.isDigit &&
    (match rest.drop 8 with
     | ['-', d] => d.isDigit
     | _ => false)

/-- Acceptance of the anchored regex of the strict pinNumber schema in
verification-form.tsx, over the character list of the candidate. -/
def ghanaCardRegexChars : List Char → Bool
  | 'G' :: 'H' :: 'A' :: '-' :: rest => ghanaTail rest
  | _ => false

/-- Acceptance of the strict regex on a string. -/
def ghanaCardRegexAccepts (s : String) : Bool :=
  ghanaCardRegexChars s.data

/-- The strict pinNumber schema of verification-form.tsx: a minimum length
of one, then the anchored regex. -/
def strictPinAccepts (s : String) : Bool :=
  (s.length != 0) && ghanaCardRegexAccepts s

/-- The pattern the strict validator is specified to accept: the literal
uppercase "GHA", a hyphen, exactly eight digits, a hyphen, exactly one
digit. Stated independently of the regex embedding. -/
def SpecGhanaCardPattern (s : String) : Prop :=
  ∃ ds d, s.data = 'G' :: 'H' :: 'A' :: '-' :: (ds ++ ['-', d]) ∧
    ds.length = 8 ∧ ds.all Char.isDigit = true ∧ d.isDigit = true

/-- Byte ceiling of the webcam-capture compressImage variant (1 MB). -/
def MAX_FILE_SIZE : Nat := 1024 * 1024

/-- Byte ceiling of the verification-form compressImage variant (512 KB). -/
def MAX_FILE_SIZE_FORM : Nat := 512 * 1024

/-- The estimate `(length * 3) / 4` both variants use to turn a base64
string length into a decoded byte count. -/
def base64ByteEstimate (strLen : Nat) : Nat := strLen * 3 / 4

/-- Length of a JPEG data URL whose base64 payload the abstract encoder
produces at the given quality (in tenths); the header
"data:image/jpeg;base64," contributes 23 characters. -/
def jpegDataUrlLen (enc : Nat → Nat) (q : Nat) : Nat := 23 + enc q

/-- Length of a PNG data URL; the header "data:image/png;base64,"
contributes 22 characters. -/
def pngDataUrlLen (enc : Nat → Nat) (q : Nat) : Nat := 22 + enc q

/-- Result of a compressImage call: the promise resolves with a base64
payload (identified by its length) or rejects with an error message. -/
inductive CompressOutcome where
  | resolved (payloadLen : Nat)
  | rejectedWithError (msg : String)
deriving DecidableEq

/-- compressImage of webcam-capture.tsx (current variant). The mobile path
re-encodes at quality 1.0 and resolves the payload with no size check; the
desktop path encodes once at quality 0.9 and rejects when the estimated
byte size of the data URL exceeds the 1 MB ceiling. The abstract encoder
maps a quality in tenths to the base64 payload length it produces. -/
def compressImageCapture (isMobile : Bool) (enc : Nat → Nat) : CompressOutcome :=
  if isMobile then
    CompressOutcome.resolved (enc 10)
  else
    let quality := 9
    let base64Size := base64ByteEstimate (jpegDataUrlLen enc quality)
    if base64Size > MAX_FILE_SIZE then
      CompressOutcome.rejectedWithError
        "Image size exceeds limit. Try moving closer to the camera or ensuring better lighting."
    else
      CompressOutcome.resolved (enc quality)

/-- The quality-stepping loop of the verification-form compressImage
variant, in exact arithmetic with the quality in tenths: starting from 0.4,
step down by 0.1 while the size estimate still exceeds the ceiling and the
quality is still above 0.1. Returns the final quality. -/
def compressFinalQuality (enc : Nat → Nat) (q : Nat) : Nat :=
  if h : base64ByteEstimate (pngDataUrlLen enc q) > MAX_FILE_SIZE_FORM ∧ 1 < q then
    compressFinalQuality enc (q - 1)
  else
    q
termination_by q
decreasing_by
  omega

/-- compressImage of verification-form.tsx (512 KB variant): run the
quality-stepping loop from quality 0.4, then reject when even the final
encoding exceeds the ceiling, otherwise resolve its payload. -/
def compressImageForm (enc : Nat → Nat) : CompressOutcome :=
  let qf := compressFinalQuality enc 4
  if base64ByteEstimate (pngDataUrlLen enc qf) > MAX_FILE_SIZE_FORM then
    CompressOutcome.rejectedWithError
      "Image size exceeds 512KB limit. Try moving closer to the camera or ensuring better lighting."
  else
    CompressOutcome.resolved (enc qf)

/-- Math.abs over the exact-rational model of JavaScript numbers. -/
def jsAbs (q : ℚ) : ℚ := if q < 0 then -q else q

/-- A named face keypoint as returned by the detector: position and
per-point confidence. -/
structure Keypoint where
  name : String
  x : ℚ
  y : ℚ
  score : ℚ
deriving DecidableEq

/-- A face bounding box in frame pixel space. -/
structure FaceBox where
  xMin : ℚ
  yMin : ℚ
  width : ℚ
  height : ℚ
deriving DecidableEq

/-- A detected face as consumed by detectGlasses: keypoints may be absent
altogether (JavaScript undefined), and the bounding box is always set. -/
structure Face where
  keypoints : Option (List Keypoint)
  box : FaceBox
deriving DecidableEq

/-- The keypoints.find call of webcam-capture.tsx: first keypoint with the
given name, if any. -/
def findKeypoint (kps : List Keypoint) (kpName : String) : Option Keypoint :=
  kps.find? (fun kp => kp.name == kpName)

/-- Method 1 of detectGlasses: average eyebrow-to-eye vertical distance
above 0.15 scores one point; skipped when any required keypoint is
missing. -/
def method1Score (kps : List Keypoint) : Nat :=
  match findKeypoint kps "leftEye", findKeypoint kps "leftEyebrow",
      findKeypoint kps "rightEye", findKeypoint kps "rightEyebrow" with
  | some le, some lb, some re, some rb =>
    if (jsAbs (le.y - lb.y) + jsAbs (re.y - rb.y)) / 2 > (15 : ℚ) / 100 then 1 else 0
  | _, _, _, _ => 0

/-- Method 2 of detectGlasses: average eye width above 12 percent of the
face-box width scores one point; skipped when a corner is missing. -/
def method2Score (kps : List Keypoint) (boxWidth : ℚ) : Nat :=
  match findKeypoint kps "leftEyeOuter", findKeypoint kps "leftEyeInner",
      findKeypoint kps "rightEyeOuter", findKeypoint kps "rightEyeInner" with
  | some lo, some li, some ro, some ri =>
    if (jsAbs (lo.x - li.x) + jsAbs (ro.x - ri.x)) / 2 > boxWidth * ((12 : ℚ) / 100) then 1 else 0
  | _, _, _, _ => 0

/-- Method 3 of detectGlasses: an eye-confidence difference above 0.1 and a
low average eye confidence each score one point, so this method alone can
contribute two; skipped when either eye is missing. -/
def method3Score (kps : List Keypoint) : Nat :=
  match findKeypoint kps "leftEye", findKeypoint kps "rightEye" with
  | some le, some re =>
    (if jsAbs (le.score - re.score) > (1 : ℚ) / 10 then 1 else 0) +
      (if (le.score + re.score) / 2 < (85 : ℚ) / 100 then 1 else 0)
  | _, _ => 0

/-- Method 4 of detectGlasses: outer-eye span above 45 percent of the
face-box width scores one point; skipped when an outer corner is missing. -/
def method4Score (kps : List Keypoint) (boxWidth : ℚ) : Nat :=
  match findKeypoint kps "leftEyeOuter", findKeypoint kps "rightEyeOuter" with
  | some lo, some ro =>
    if jsAbs (ro.x - lo.x) / boxWidth > (45 : ℚ) / 100 then 1 else 0
  | _, _ => 0

/-- The glassesScore accumulated by detectGlasses in webcam-capture.tsx
(lines 352-446); zero when the keypoints field is absent, in which case the
function returns false before any scoring. -/
def detectGlassesScore (face : Face) : Nat :=
  match face.keypoints with
  | none => 0
  | some kps =>
    method1Score kps + method2Score kps face.box.width +
      method3Score kps + method4Score kps face.box.width

/-- detectGlasses: eyewear is reported once the point total reaches 2. -/
def detectGlasses (face : Face) : Bool :=
  match face.keypoints with
  | none => false
  | some kps =>
    decide (2 ≤ method1Score kps + method2Score kps face.box.width +
      method3Score kps + method4Score kps face.box.width)

/-- A detected face position as kept in component state (the fields pushed
into facePositions and movementHistory). -/
structure FacePosition where
  x : ℚ
  y : ℚ
  width : ℚ
  height : ℚ
deriving DecidableEq

/-- Frame width constant of the capture component. -/
def CAPTURE_WIDTH : ℚ := 640

/-- Frame height constant of the capture component. -/
def CAPTURE_HEIGHT : ℚ := 480

/-- Lower face-size bound constant. -/
def MIN_FACE_SIZE : ℚ := 3 / 10

/-- Upper face-size bound constant. -/
def MAX_FACE_SIZE : ℚ := 7 / 10

/-- Image-quality result of analyzeImageQuality. -/
structure ImageQuality where
  isCentered : Bool
  isRightSize : Bool
  isStraight : Bool
  isSharp : Bool
  score : Nat
deriving DecidableEq

/-- analyzeImageQuality of webcam-capture.tsx (lines 448-482): centering
within 10 percent of the frame centre on both axes, width ratio within the
fixed band, two placeholder checks that are always true, and a score of 25
per passed check. -/
def analyzeImageQuality (face : FacePosition) : ImageQuality :=
  let centerX := CAPTURE_WIDTH / 2
  let centerY := CAPTURE_HEIGHT / 2
  let faceCenterX := face.x + face.width / 2
  let faceCenterY := face.y + face.height / 2
  let isCentered :=
    decide (jsAbs (faceCenterX - centerX) < CAPTURE_WIDTH * ((1 : ℚ) / 10)) &&
      decide (jsAbs (faceCenterY - centerY) < CAPTURE_HEIGHT * ((1 : ℚ) / 10))
  let faceWidthRatio := face.width / CAPTURE_WIDTH
  let isRightSize :=
    decide (MIN_FACE_SIZE ≤ faceWidthRatio) && decide (faceWidthRatio ≤ MAX_FACE_SIZE)
  let isStraight := true
  let isSharp := true
  let score := ([isCentered, isRightSize, isStraight, isSharp].filter (fun b => b)).length * 25
  { isCentered := isCentered, isRightSize := isRightSize,
    isStraight := isStraight, isSharp := isSharp, score := score }

/-- Movement threshold constant of the liveness check. -/
def MOVEMENT_THRESHOLD : ℚ := 20

/-- Capacity of the movement history. -/
def MOVEMENT_HISTORY_LENGTH : Nat := 10

/-- The JavaScript slice with a negative start: keep the last n elements. -/
def sliceLast (n : Nat) (l : List FacePosition) : List FacePosition :=
  l.drop (l.length - n)

/-- The Manhattan distance between two samples, exactly as computed in the
movement check. -/
def manhattanDist (a b : FacePosition) : ℚ :=
  jsAbs (a.x - b.x) + jsAbs (a.y - b.y)

/-- Liveness-relevant component state: the bounded movement history and the
session liveness flag. -/
structure LivenessState where
  movementHistory : List FacePosition
  isLive : Bool
deriving DecidableEq

/-- The movement-history update of detectFaces (webcam-capture.tsx lines
513-524) for one detection cycle with a primary face: append the sample,
keep the last ten, and when at least two samples exist and the Manhattan
distance between the two most recent exceeds the threshold, set the
session flag; the flag is never written false. -/
def livenessStep (s : LivenessState) (p : FacePosition) : LivenessState :=
  let newHistory := sliceLast MOVEMENT_HISTORY_LENGTH (s.movementHistory ++ [p])
  if 2 ≤ newHistory.length then
    let lastPos := newHistory.getD (newHistory.length - 1) p
    let prevPos := newHistory.getD (newHistory.length - 2) p
    let movement := jsAbs (lastPos.x - prevPos.x) + jsAbs (lastPos.y - prevPos.y)
    if movement > MOVEMENT_THRESHOLD then
      { movementHistory := newHistory, isLive := true }
    else
      { movementHistory := newHistory, isLive := s.isLive }
  else
    { movementHistory := newHistory, isLive := s.isLive }

/-- The bounded history produced by one update, named for the statements
about the step. -/
def newHistoryOf (s : LivenessState) (p : FacePosition) : List FacePosition :=
  sliceLast MOVEMENT_HISTORY_LENGTH (s.movementHistory ++ [p])

/-- Face-count cap constant, also passed to the detector as maxFaces. -/
def MAX_FACES_ALLOWED : Nat := 4

/-- The component state read by the capture button: lighting verdict, face
presence, liveness flag, aggregate quality score, face count, and the
eyewear verdict. -/
structure GateState where
  lightingGood : Bool
  faceDetected : Bool
  isLive : Bool
  qualityScore : Nat
  faceCount : Nat
  glassesDetected : Bool
deriving DecidableEq

/-- The disabled condition of the capture button (webcam-capture.tsx lines
954-964). -/
def captureDisabled (s : GateState) : Bool :=
  !s.lightingGood || !s.faceDetected || !s.isLive ||
    decide (s.qualityScore < 75) ||
    decide (s.faceCount > MAX_FACES_ALLOWED) || s.glassesDetected

/-- The label ternary of the capture button (webcam-capture.tsx lines
967-973). -/
def captureLabel (s : GateState) : String :=
  if !s.faceDetected then "No Face Detected"
  else if !s.isLive then "Confirm Liveness"
  else if !s.lightingGood then "Adjust Lighting"
  else if s.qualityScore < 75 then "Follow Guidelines"
  else if s.faceCount > MAX_FACES_ALLOWED then "Too Many Faces"
  else if s.glassesDetected then "Remove Glasses"
  else "Capture Photo"

/-- The specified precedence of denial reasons: each reason paired with the
condition under which it applies, in the fixed order. -/
def denialReasons (s : GateState) : List (Bool × String) :=
  [ (!s.faceDetected, "No Face Detected"),
    (!s.isLive, "Confirm Liveness"),
    (!s.lightingGood, "Adjust Lighting"),
    (decide (s.qualityScore < 75), "Follow Guidelines"),
    (decide (s.faceCount > MAX_FACES_ALLOWED), "Too Many Faces"),
    (s.glassesDetected, "Remove Glasses") ]

/-- The specified reason selection: the first applicable denial reason in
precedence order, or the go-ahead label when no condition applies. -/
def specCaptureLabel (s : GateState) : String :=
  match (denialReasons s).find? (fun p => p.1) with
  | some p => p.2
  | none => "Capture Photo"

/-- The disabled condition with the face-count disjunct removed, used to
state that the face count never contributes under the detector cap. -/
def captureDisabledIgnoringFaceCount (s : GateState) : Bool :=
  !s.lightingGood || !s.faceDetected || !s.isLive ||
    decide (s.qualityScore < 75) || s.glassesDetected

/-- A 1000-character image payload, the smallest length the handler
accepts. -/
def bigImageData : String := String.mk (List.replicate 1000 'a')

/-- A concrete authenticated request that passes the input validation of
POST /api/verify. -/
def sampleValidRequest : VerifyRequest :=
  { authenticated := true, userId := 7,
    pinNumber := some "GHA-12345678-1", imageData := some bigImageData }

/-- A concrete persisted record that already carries the approved status. -/
def sampleApprovedRow : VerificationRow :=
  { userId := 1, merchantId := merchantKey, pinNumber := "GHA-12345678-1",
    imageData := none, status := VStatus.approved, response := none }

/-- Keypoints of a concrete detected face on which all four glasses signals
fire and Method 3 fires twice. -/
def glassesCexKps : List Keypoint :=
  [ { name := "leftEye", x := 0, y := 0, score := 9 / 10 },
    { name := "rightEye", x := 0, y := 0, score := 7 / 10 },
    { name := "leftEyeOuter", x := 0, y := 0, score := 1 },
    { name := "leftEyeInner", x := 10, y := 0, score := 1 },
    { name := "rightEyeOuter", x := 20, y := 0, score := 1 },
    { name := "rightEyeInner", x := 10, y := 0, score := 1 },
    { name := "leftEyebrow", x := 0, y := 1, score := 1 },
    { name := "rightEyebrow", x := 0, y := 1, score := 1 } ]

/-- A concrete detected face carrying those keypoints, so the point total
reaches five. -/
def glassesCexFace : Face :=
  { keypoints := some glassesCexKps,
    box := { xMin := 0, yMin := 0, width := 10, height := 10 } }

/-- A concrete detected face whose keypoint list is present but empty, so
every glasses signal is skipped. -/
def emptyKpFace : Face :=
  { keypoints := some [], box := { xMin := 0, yMin := 0, width := 10, height := 10 } }

/-- A concrete gate state within the detector cap: everything green with
four detected faces. -/
def sampleGateState : GateState :=
  { lightingGood := true, faceDetected := true, isLive := true,
    qualityScore := 100, faceCount := 4, glassesDetected := false }

/-- A liveness state that has just seen two widely displaced samples. -/
def sampleLiveState : LivenessState :=
  livenessStep
    (livenessStep { movementHistory := [], isLive := false }
      { x := 0, y := 0, width := 100, height := 100 })
    { x := 100, y := 0, width := 100, height := 100 }

/-- A near-identical follow-up sample for the liveness trace. -/
def stillSample : FacePosition := { x := 100, y := 0, width := 100, height := 100 }

/-- Helper: the sample image payload has exactly the minimum accepted
length. -/
theorem bigImageData_length : bigImageData.length = 1000 := by
  rw [show bigImageData.length = (List.replicate 1000 'a').length from rfl,
    List.length_replicate]

/-- Helper: the sample image payload is not the empty string. -/
theorem bigImageData_ne_empty : (bigImageData == "") = false := by
  have h : bigImageData ≠ "" := by
    intro h
    have hl := congrArg String.length h
    rw [bigImageData_length] at hl
    exact absurd hl (by decide)
  exact beq_eq_false_iff_ne.mpr h

/-- Helper: the sample request passes the input validation of the verify
handler. -/
theorem sampleValidRequest_passes : passesVerifyValidation sampleValidRequest = true := by
  simp only [passesVerifyValidation, sampleValidRequest, Bool.and_eq_true,
    bigImageData_ne_empty, bigImageData_length]
  exact ⟨⟨trivial, by decide⟩, by decide, by decide⟩

/-- Helper: on a request that passes input validation, the handler returns
500 with no insert when the external call throws, and inserts exactly the
derived row when the external call returns a parsed body. -/
theorem postVerify_valid_shape (req : VerifyRequest)
    (h : passesVerifyValidation req = true) :
    ∃ pin img, req.pinNumber = some pin ∧ req.imageData = some img ∧
      postVerify req FetchOutcome.thrown = { httpStatus := 500, insertedRows := [] } ∧
      ∀ ok us body,
        (postVerify req (FetchOutcome.response ok us body)).insertedRows =
          [{ userId := req.userId, merchantId := merchantKey, pinNumber := pin,
             imageData := some img, status := deriveVerificationStatus body,
             response := some body.stringifyShallow }] := by
  obtain ⟨auth, uid, pinOpt, imgOpt⟩ := req
  cases pinOpt with
  | none => simp [passesVerifyValidation] at h
  | some pin =>
    cases imgOpt with
    | none => simp [passesVerifyValidation] at h
    | some img =>
      simp only [passesVerifyValidation, Bool.and_eq_true, Bool.not_eq_true'] at h
      obtain ⟨⟨hauth, hpin1, hpin2⟩, himg1, himg2⟩ := h
      have hlen : ¬ (img.length < 1000) := by
        simpa using himg2
      have hpos : img.length > 0 := by omega
      have hne : img ≠ "" := by simpa using himg1
      refine ⟨pin, img, rfl, rfl, ?_, ?_⟩
      · simp [postVerify, hauth, hpin1, hpin2, hlen, hne]
      · intro ok us body
        cases ok <;>
          simp [postVerify, hauth, hpin1, hpin2, hlen, hpos, hne]

/-- C1 (counterexample): the PATCH /api/verifications/:id handler, called by
an authenticated administrator with status "pending" on a record whose
status is approved, succeeds and moves the record back to pending, so a
transition out of approved back to pending is performed by an operation of
the system. -/
theorem patch_pending_reverts_approved_record :
    sampleApprovedRow.status = VStatus.approved ∧
    patchVerification true "pending" none (some sampleApprovedRow) =
      PatchResult.updated { sampleApprovedRow with status := VStatus.pending } := by
  exact ⟨rfl, rfl⟩

/-- C1 (amended): the automatic derivation only chooses the status of the
newly inserted record, and the PATCH handler validates the requested status
against the fixed three-element list only — it then overwrites the record
unconditionally, so every one of pending, approved and rejected is
reachable from every current status, including approved back to pending;
any other requested status is rejected with 400. -/
theorem patch_sets_any_allowed_status (v : VerificationRow) (st : VStatus)
    (resp : Option String) :
    patchVerification true (vstatusToString st) resp (some v) =
      PatchResult.updated { v with status := st, response := jsOrNull resp } ∧
    (∀ reqStatus : String, parseVStatus reqStatus = none →
      patchVerification true reqStatus resp (some v) = PatchResult.badRequest) := by
  constructor
  · cases st <;> rfl
  · intro reqStatus h
    simp [patchVerification, h]

/-- C1 (witness): the amended characterization applied at a concrete
approved record, a concrete note, and the concrete unparseable status
"bogus". -/
theorem patch_sets_any_allowed_status_witness :
    patchVerification true "pending" (some "note") (some sampleApprovedRow) =
      PatchResult.updated
        { sampleApprovedRow with status := VStatus.pending, response := some "note" } ∧
    patchVerification true "bogus" (some "note") (some sampleApprovedRow) =
      PatchResult.badRequest := by
  have h := patch_sets_any_allowed_status sampleApprovedRow VStatus.pending (some "note")
  exact ⟨h.1, h.2 "bogus" rfl⟩

/-- C3 (counterexample): a concrete authenticated submission that passes
input validation inserts one row when the external call returns a response,
but inserts no row at all when the outbound call throws — the handler falls
into its catch block and answers 500 — so it is not the case that exactly
one row is inserted regardless of whether the external call succeeds or
fails. -/
theorem verify_thrown_inserts_nothing :
    passesVerifyValidation sampleValidRequest = true ∧
    (postVerify sampleValidRequest
      (FetchOutcome.response true 200 Json.arr)).insertedRows.length = 1 ∧
    (postVerify sampleValidRequest FetchOutcome.thrown).insertedRows.length = 0 := by
  have hp := sampleValidRequest_passes
  obtain ⟨pin, img, _, _, hthrown, hresp⟩ := postVerify_valid_shape sampleValidRequest hp
  refine ⟨hp, ?_, ?_⟩
  · rw [hresp true 200 Json.arr]; rfl
  · rw [hthrown]; rfl

/-- C3 (amended): for every submission that passes input validation,
exactly one row is inserted whenever the outbound call returns a response
whose body was parsed — whatever its HTTP status — and no row is inserted
when the outbound call or the body parse throws. -/
theorem verify_row_insertion (req : VerifyRequest)
    (h : passesVerifyValidation req = true) :
    (∀ ok us body,
      (postVerify req (FetchOutcome.response ok us body)).insertedRows.length = 1) ∧
    (postVerify req FetchOutcome.thrown).insertedRows.length = 0 := by
  obtain ⟨pin, img, _, _, hthrown, hresp⟩ := postVerify_valid_shape req h
  constructor
  · intro ok us body
    rw [hresp ok us body]
    rfl
  · rw [hthrown]; rfl

/-- C3 (witness): the amended insertion count applied to the concrete valid
request with an upstream HTTP failure response. -/
theorem verify_row_insertion_witness :
    (postVerify sampleValidRequest
      (FetchOutcome.response false 502 Json.null)).insertedRows.length = 1 := by
  exact (verify_row_insertion sampleValidRequest sampleValidRequest_passes).1 false 502 Json.null

/-- Helper: a JSON value with a readable field is an object, hence truthy
and of object type. -/
theorem getField_some_isObj (j : Json) (fieldName : String) (v : Json)
    (h : j.getField? fieldName = some v) :
    jsTruthy j = true ∧ jsIsObjectType j = true := by
  cases j <;> simp_all [Json.getField?, jsTruthy, jsIsObjectType]

/-- C2: on every submission that passes input validation and completes the
external call, the status persisted with the single inserted record is the
derived one; the derivation maps a body with the data.verified shape to
approved exactly when verified is the boolean true or the string "TRUE"
and to rejected otherwise, and a body without that shape to approved on
responseCode "00", to rejected on responseCode "01", and to pending when
neither recognizable shape is present. -/
theorem verify_status_derivation (req : VerifyRequest) (ok : Bool) (us : Nat)
    (body : Json) (h : passesVerifyValidation req = true) :
    ((postVerify req (FetchOutcome.response ok us body)).insertedRows.map
        VerificationRow.status = [deriveVerificationStatus body]) ∧
    (hasVerifiedShape body = true →
      deriveVerificationStatus body =
        (if (verifiedValue body).eqLit (Json.str "TRUE") ||
            (verifiedValue body).eqLit (Json.bool true)
         then VStatus.approved else VStatus.rejected)) ∧
    (hasVerifiedShape body = false →
      body.getField? "responseCode" = some (Json.str "00") →
      deriveVerificationStatus body = VStatus.approved) ∧
    (hasVerifiedShape body = false →
      body.getField? "responseCode" = some (Json.str "01") →
      deriveVerificationStatus body = VStatus.rejected) ∧
    (hasVerifiedShape body = false → hasResponseCodeShape body = false →
      deriveVerificationStatus body = VStatus.pending) := by
  obtain ⟨pin, img, _, _, _, hresp⟩ := postVerify_valid_shape req h
  refine ⟨?_, ?_, ?_, ?_, ?_⟩
  · rw [hresp ok us body]; rfl
  · intro hshape
    simp [deriveVerificationStatus, hshape]
  · intro hshape hcode
    obtain ⟨ht, ho⟩ := getField_some_isObj body "responseCode" (Json.str "00") hcode
    have hrc : hasResponseCodeShape body = true := by
      simp [hasResponseCodeShape, ht, ho, Json.hasField, hcode]
    simp [deriveVerificationStatus, hshape, hrc, hcode]
  · intro hshape hcode
    obtain ⟨ht, ho⟩ := getField_some_isObj body "responseCode" (Json.str "01") hcode
    have hrc : hasResponseCodeShape body = true := by
      simp [hasResponseCodeShape, ht, ho, Json.hasField, hcode]
    simp [deriveVerificationStatus, hshape, hrc, hcode]
  · intro hshape hrc
    simp [deriveVerificationStatus, hshape, hrc]

/-- C2 (witness): the derivation applied to the concrete valid request with
the three mocked collaborator bodies of the end-to-end scenario. -/
theorem verify_status_derivation_witness :
    ((postVerify sampleValidRequest (FetchOutcome.response true 200
        (Json.obj [("responseCode", Json.str "00")]))).insertedRows.map
      VerificationRow.status = [VStatus.approved]) ∧
    ((postVerify sampleValidRequest (FetchOutcome.response true 200
        (Json.obj [("responseCode", Json.str "01")]))).insertedRows.map
      VerificationRow.status = [VStatus.rejected]) ∧
    ((postVerify sampleValidRequest (FetchOutcome.response true 200
        (Json.str "garbage"))).insertedRows.map
      VerificationRow.status = [VStatus.pending]) := by
  have h00 := verify_status_derivation sampleValidRequest true 200
    (Json.obj [("responseCode", Json.str "00")]) sampleValidRequest_passes
  have h01 := verify_status_derivation sampleValidRequest true 200
    (Json.obj [("responseCode", Json.str "01")]) sampleValidRequest_passes
  have hg := verify_status_derivation sampleValidRequest true 200
    (Json.str "garbage") sampleValidRequest_passes
  refine ⟨?_, ?_, ?_⟩
  · rw [h00.1, h00.2.2.1 rfl rfl]
  · rw [h01.1, h01.2.2.2.1 rfl rfl]
  · rw [hg.1, hg.2.2.2.2 rfl rfl]

/-- Helper: the tail matcher accepts exactly eight digits, a hyphen and a
final digit. -/
theorem ghanaTail_iff (rest : List Char) :
    ghanaTail rest = true ↔
      ∃ ds d, rest = ds ++ ['-', d] ∧ ds.length = 8 ∧
        ds.all Char.isDigit = true ∧ d.isDigit = true := by
  unfold ghanaTail
  constructor
  · intro h
    rw [Bool.and_eq_true, Bool.and_eq_true] at h
    obtain ⟨⟨h1, h2⟩, h3⟩ := h
    have h1n : (rest.take 8).length = 8 := by simpa using h1
    split at h3
    case _ d heq =>
      refine ⟨rest.take 8, d, ?_, h1n, h2, h3⟩
      conv_lhs => rw [← List.take_append_drop 8 rest, heq]
    case _ => exact absurd h3 (by simp)
  · rintro ⟨ds, d, rfl, h8, hall, hd⟩
    have ht : (ds ++ ['-', d]).take 8 = ds := by
      rw [← h8]; exact List.take_left ds _
    have hdp : (ds ++ ['-', d]).drop 8 = ['-', d] := by
      rw [← h8]; exact List.drop_left ds _
    rw [ht, hdp]
    simp [h8, hall, hd]

/-- Helper: the character-level regex matcher accepts exactly the
GHA-dddddddd-d shape. -/
theorem ghanaCardRegexChars_iff (cs : List Char) :
    ghanaCardRegexChars cs = true ↔
      ∃ ds d, cs = 'G' :: 'H' :: 'A' :: '-' :: (ds ++ ['-', d]) ∧ ds.length = 8 ∧
        ds.all Char.isDigit = true ∧ d.isDigit = true := by
  constructor
  · intro h
    unfold ghanaCardRegexChars at h
    split at h
    case _ rest =>
      obtain ⟨ds, d, hrest, h8, hall, hd⟩ := (ghanaTail_iff rest).mp h
      exact ⟨ds, d, by rw [hrest], h8, hall, hd⟩
    case _ => exact absurd h (by simp)
  · rintro ⟨ds, d, rfl, h8, hall, hd⟩
    show ghanaTail (ds ++ ['-', d]) = true
    exact (ghanaTail_iff _).mpr ⟨ds, d, rfl, h8, hall, hd⟩

/-- C4: the strict pinNumber schema of verification-form.tsx accepts a
string exactly when it is the literal uppercase "GHA", a hyphen, eight
digits, a hyphen and one digit; every deviation — wrong digit counts,
lowercase letters, missing hyphens — is rejected. -/
theorem strict_pin_accepts_iff (s : String) :
    strictPinAccepts s = true ↔ SpecGhanaCardPattern s := by
  unfold strictPinAccepts SpecGhanaCardPattern ghanaCardRegexAccepts
  rw [Bool.and_eq_true, ghanaCardRegexChars_iff]
  constructor
  · rintro ⟨-, ds, d, hs, h8, hall, hd⟩
    exact ⟨ds, d, hs, h8, hall, hd⟩
  · rintro ⟨ds, d, hs, h8, hall, hd⟩
    refine ⟨?_, ds, d, hs, h8, hall, hd⟩
    have hlen : s.length = s.data.length := rfl
    rw [bne_iff_ne]
    intro h0
    rw [hlen, hs] at h0
    simp at h0

/-- C5 (counterexample): with an encoder whose full-quality JPEG payload is
four million base64 characters, the mobile path of compressImage in
webcam-capture.tsx resolves that payload unchecked, and its decoded byte
estimate of three million bytes exceeds the configured 1 MB ceiling. -/
theorem mobile_compress_resolves_oversized :
    compressImageCapture true (fun _ => 4000000) = CompressOutcome.resolved 4000000 ∧
    base64ByteEstimate 4000000 > MAX_FILE_SIZE := by
  exact ⟨rfl, by decide⟩

/-- C5 (amended): the desktop path of the webcam-capture compressImage and
the 512 KB quality-stepping variant never resolve with a payload whose
decoded byte estimate exceeds their ceilings, and the stepping variant
rejects with its descriptive error whenever it does not resolve; the mobile
path, however, resolves the full-quality encoding without any size
check. -/
theorem compress_size_ceiling (enc : Nat → Nat) :
    (∀ pl, compressImageCapture false enc = CompressOutcome.resolved pl →
      base64ByteEstimate pl ≤ MAX_FILE_SIZE) ∧
    (∀ pl, compressImageForm enc = CompressOutcome.resolved pl →
      base64ByteEstimate pl ≤ MAX_FILE_SIZE_FORM) ∧
    ((∀ pl, compressImageForm enc ≠ CompressOutcome.resolved pl) →
      compressImageForm enc = CompressOutcome.rejectedWithError
        "Image size exceeds 512KB limit. Try moving closer to the camera or ensuring better lighting.") ∧
    compressImageCapture true enc = CompressOutcome.resolved (enc 10) := by
  have hmono : ∀ a b : Nat, a ≤ b → base64ByteEstimate a ≤ base64ByteEstimate b := by
    intro a b hab
    exact Nat.div_le_div_right (Nat.mul_le_mul_right 3 hab)
  have hcap : compressImageCapture false enc =
      (if base64ByteEstimate (jpegDataUrlLen enc 9) > MAX_FILE_SIZE then
        CompressOutcome.rejectedWithError
          "Image size exceeds limit. Try moving closer to the camera or ensuring better lighting."
      else CompressOutcome.resolved (enc 9)) := rfl
  have hform : compressImageForm enc =
      (if base64ByteEstimate (pngDataUrlLen enc (compressFinalQuality enc 4)) >
          MAX_FILE_SIZE_FORM then
        CompressOutcome.rejectedWithError
          "Image size exceeds 512KB limit. Try moving closer to the camera or ensuring better lighting."
      else CompressOutcome.resolved (enc (compressFinalQuality enc 4))) := rfl
  refine ⟨?_, ?_, ?_, rfl⟩
  · intro pl hres
    rw [hcap] at hres
    split at hres
    · simp at hres
    case _ hgt =>
      injection hres with hpl
      subst hpl
      calc base64ByteEstimate (enc 9) ≤ base64ByteEstimate (jpegDataUrlLen enc 9) :=
            hmono _ _ (by unfold jpegDataUrlLen; omega)
        _ ≤ MAX_FILE_SIZE := Nat.le_of_not_lt hgt
  · intro pl hres
    rw [hform] at hres
    split at hres
    · simp at hres
    case _ hgt =>
      injection hres with hpl
      subst hpl
      calc base64ByteEstimate (enc (compressFinalQuality enc 4)) ≤
            base64ByteEstimate (pngDataUrlLen enc (compressFinalQuality enc 4)) :=
            hmono _ _ (by unfold pngDataUrlLen; omega)
        _ ≤ MAX_FILE_SIZE_FORM := Nat.le_of_not_lt hgt
  · intro hnone
    rw [hform]
    split
    · rfl
    · exact absurd (hform.trans (by split <;> simp_all)) (hnone (enc (compressFinalQuality enc 4)))

/-- C5 (witness): the amended ceiling guarantee applied to the encoder that
always produces an empty payload, which the stepping variant resolves. -/
theorem compress_size_ceiling_witness :
    compressImageForm (fun _ => 0) = CompressOutcome.resolved 0 ∧
    base64ByteEstimate 0 ≤ MAX_FILE_SIZE_FORM ∧
    compressImageCapture true (fun _ => 0) = CompressOutcome.resolved 0 := by
  have h := compress_size_ceiling (fun _ => 0)
  have hform : compressImageForm (fun _ => 0) = CompressOutcome.resolved 0 := by
    simp [compressImageForm, compressFinalQuality, pngDataUrlLen, base64ByteEstimate,
      MAX_FILE_SIZE_FORM]
  exact ⟨hform, h.2.1 0 hform, h.2.2.2⟩

/-- Helper: Method 1 contributes at most one point. -/
theorem method1Score_le_one (kps : List Keypoint) : method1Score kps ≤ 1 := by
  unfold method1Score
  split
  · split <;> omega
  · omega

/-- Helper: Method 2 contributes at most one point. -/
theorem method2Score_le_one (kps : List Keypoint) (bw : ℚ) : method2Score kps bw ≤ 1 := by
  unfold method2Score
  split
  · split <;> omega
  · omega

/-- Helper: Method 3 contributes at most two points. -/
theorem method3Score_le_two (kps : List Keypoint) : method3Score kps ≤ 2 := by
  unfold method3Score
  split
  · split <;> split <;> omega
  · omega

/-- Helper: Method 4 contributes at most one point. -/
theorem method4Score_le_one (kps : List Keypoint) (bw : ℚ) : method4Score kps bw ≤ 1 := by
  unfold method4Score
  split
  · split <;> omega
  · omega

/-- C6 (counterexample): on a concrete detected face all four signals fire
and Method 3 fires twice, so the eyewear point total computed by
detectGlasses reaches five, outside the range zero to four. -/
theorem glasses_score_reaches_five :
    detectGlassesScore glassesCexFace = 5 ∧ ¬ detectGlassesScore glassesCexFace ≤ 4 := by
  have f1 : findKeypoint glassesCexKps "leftEye" =
      some { name := "leftEye", x := 0, y := 0, score := 9 / 10 } := rfl
  have f2 : findKeypoint glassesCexKps "rightEye" =
      some { name := "rightEye", x := 0, y := 0, score := 7 / 10 } := rfl
  have f3 : findKeypoint glassesCexKps "leftEyeOuter" =
      some { name := "leftEyeOuter", x := 0, y := 0, score := 1 } := rfl
  have f4 : findKeypoint glassesCexKps "leftEyeInner" =
      some { name := "leftEyeInner", x := 10, y := 0, score := 1 } := rfl
  have f5 : findKeypoint glassesCexKps "rightEyeOuter" =
      some { name := "rightEyeOuter", x := 20, y := 0, score := 1 } := rfl
  have f6 : findKeypoint glassesCexKps "rightEyeInner" =
      some { name := "rightEyeInner", x := 10, y := 0, score := 1 } := rfl
  have f7 : findKeypoint glassesCexKps "leftEyebrow" =
      some { name := "leftEyebrow", x := 0, y := 1, score := 1 } := rfl
  have f8 : findKeypoint glassesCexKps "rightEyebrow" =
      some { name := "rightEyebrow", x := 0, y := 1, score := 1 } := rfl
  have e1 : method1Score glassesCexKps = 1 := by
    rw [method1Score, f1, f7, f2, f8]
    norm_num [jsAbs]
  have e2 : method2Score glassesCexKps 10 = 1 := by
    rw [method2Score, f3, f4, f5, f6]
    norm_num [jsAbs]
  have e3 : method3Score glassesCexKps = 2 := by
    rw [method3Score, f1, f2]
    norm_num [jsAbs]
  have e4 : method4Score glassesCexKps 10 = 1 := by
    rw [method4Score, f3, f5]
    norm_num [jsAbs]
  have hsum : detectGlassesScore glassesCexFace =
      method1Score glassesCexKps + method2Score glassesCexKps 10 +
        method3Score glassesCexKps + method4Score glassesCexKps 10 := rfl
  rw [hsum, e1, e2, e3, e4]
  omega

/-- C6 (amended): for every detected face the eyewear point total lies in
the range zero to five — Method 3 can contribute two points — eyewear is
reported present exactly when the total is at least two, an absent
keypoint list yields no eyewear report, and a signal whose required
keypoints are missing contributes nothing. -/
theorem glasses_score_bounds (face : Face) :
    detectGlassesScore face ≤ 5 ∧
    (detectGlasses face = true ↔ 2 ≤ detectGlassesScore face) ∧
    (face.keypoints = none → detectGlasses face = false) ∧
    (∀ kps, (findKeypoint kps "leftEye" = none ∨ findKeypoint kps "leftEyebrow" = none ∨
        findKeypoint kps "rightEye" = none ∨ findKeypoint kps "rightEyebrow" = none) →
      method1Score kps = 0) ∧
    (∀ kps bw, (findKeypoint kps "leftEyeOuter" = none ∨ findKeypoint kps "leftEyeInner" = none ∨
        findKeypoint kps "rightEyeOuter" = none ∨ findKeypoint kps "rightEyeInner" = none) →
      method2Score kps bw = 0) ∧
    (∀ kps, (findKeypoint kps "leftEye" = none ∨ findKeypoint kps "rightEye" = none) →
      method3Score kps = 0) ∧
    (∀ kps bw, (findKeypoint kps "leftEyeOuter" = none ∨ findKeypoint kps "rightEyeOuter" = none) →
      method4Score kps bw = 0) := by
  refine ⟨?_, ?_, ?_, ?_, ?_, ?_, ?_⟩
  · unfold detectGlassesScore
    split
    · omega
    case _ kps _ =>
      have := method1Score_le_one kps
      have := method2Score_le_one kps face.box.width
      have := method3Score_le_two kps
      have := method4Score_le_one kps face.box.width
      omega
  · unfold detectGlasses detectGlassesScore
    split
    · simp
    · simp
  · intro hnone
    unfold detectGlasses
    rw [hnone]
  · intro kps hmiss
    unfold method1Score
    rcases hmiss with hm | hm | hm | hm <;> rw [hm] <;> split <;> simp_all
  · intro kps bw hmiss
    unfold method2Score
    rcases hmiss with hm | hm | hm | hm <;> rw [hm] <;> split <;> simp_all
  · intro kps hmiss
    unfold method3Score
    rcases hmiss with hm | hm
    all_goals rw [hm]
    all_goals first | rfl | (split <;> simp_all)
  · intro kps bw hmiss
    unfold method4Score
    rcases hmiss with hm | hm
    all_goals rw [hm]
    all_goals first | rfl | (split <;> simp_all)

/-- C6 (witness): the amended bounds applied to the concrete face with an
empty keypoint list, discharging the missing-keypoint hypotheses there. -/
theorem glasses_score_bounds_witness :
    method1Score ([] : List Keypoint) = 0 ∧
    detectGlassesScore emptyKpFace ≤ 5 ∧
    detectGlasses emptyKpFace = false := by
  have h := glasses_score_bounds emptyKpFace
  refine ⟨h.2.2.2.1 [] (Or.inl rfl), h.1, ?_⟩
  have hsc : detectGlassesScore emptyKpFace = 0 := rfl
  have hiff := h.2.1
  rw [hsc] at hiff
  cases hdg : detectGlasses emptyKpFace with
  | false => rfl
  | true => exact absurd (hiff.mp hdg) (by omega)

/-- C7: the capture button is enabled exactly when lighting is good, a face
is detected, the liveness flag is set, the aggregate quality score is at
least 75, the face count does not exceed the fixed cap, and no eyewear is
detected; its label equals the first applicable reason in the fixed
precedence order — no face, confirm liveness, adjust lighting, follow
guidelines, too many faces, remove glasses — and reads "Capture Photo"
exactly when capture is permitted. -/
theorem capture_gate_characterization (s : GateState) :
    (captureDisabled s = false ↔
      (s.lightingGood = true ∧ s.faceDetected = true ∧ s.isLive = true ∧
        75 ≤ s.qualityScore ∧ s.faceCount ≤ MAX_FACES_ALLOWED ∧
        s.glassesDetected = false)) ∧
    captureLabel s = specCaptureLabel s ∧
    (captureDisabled s = true ↔ captureLabel s ≠ "Capture Photo") := by
  obtain ⟨lg, fd, il, qs, fc, gd⟩ := s
  by_cases hq : qs < 75 <;> by_cases hc : fc > MAX_FACES_ALLOWED <;>
    cases lg <;> cases fd <;> cases il <;> cases gd <;>
      simp_all [captureDisabled, captureLabel, specCaptureLabel, denialReasons,
        MAX_FACES_ALLOWED] <;>
        (try split_ifs) <;> (try simp_all) <;> omega

/-- C10: whenever the detection cycle yields at most MAX_FACES_ALLOWED
faces — which the detector configured with maxFaces, the same constant,
guarantees — the too-many-faces condition of the capture button is false,
the "Too Many Faces" label is unreachable, and the disabled condition
coincides with the one that ignores the face count entirely. -/
theorem face_cap_unreachable (s : GateState)
    (h : s.faceCount ≤ MAX_FACES_ALLOWED) :
    decide (s.faceCount > MAX_FACES_ALLOWED) = false ∧
    captureLabel s ≠ "Too Many Faces" ∧
    captureDisabled s = captureDisabledIgnoringFaceCount s := by
  obtain ⟨lg, fd, il, qs, fc, gd⟩ := s
  simp only [MAX_FACES_ALLOWED] at h
  by_cases hq : qs < 75 <;>
    cases lg <;> cases fd <;> cases il <;> cases gd <;>
      simp_all [captureDisabled, captureDisabledIgnoringFaceCount, captureLabel,
        MAX_FACES_ALLOWED] <;>
        (try split_ifs) <;> (try simp_all) <;> omega

/-- C10 (witness): the cap consequence applied to a concrete all-green
state with exactly four detected faces. -/
theorem face_cap_unreachable_witness :
    captureLabel sampleGateState ≠ "Too Many Faces" ∧
    captureDisabled sampleGateState = captureDisabledIgnoringFaceCount sampleGateState := by
  have h := face_cap_unreachable sampleGateState (by decide)
  exact ⟨h.2.1, h.2.2⟩

/-- Helper: the score arithmetic of analyzeImageQuality, for arbitrary
results of the two live sub-checks. -/
theorem quality_score_formula (b1 b2 : Bool) :
    ([b1, b2, true, true].filter (fun b => b)).length * 25 =
      25 * ([b1, b2, true, true].count true) ∧
    (([b1, b2, true, true].filter (fun b => b)).length * 25 = 50 ∨
     ([b1, b2, true, true].filter (fun b => b)).length * 25 = 75 ∨
     ([b1, b2, true, true].filter (fun b => b)).length * 25 = 100) := by
  cases b1 <;> cases b2 <;> simp [List.count, List.filter]

/-- C9: analyzeImageQuality reports isCentered exactly when the box centre
lies within ten percent of the frame width and height of the frame centre
on both axes, reports isRightSize exactly when the width ratio lies in the
closed band from 0.3 to 0.7, and returns a score equal to 25 times the
number of true sub-checks, which always lands in the set 0, 25, 50, 75,
100 — in fact in 50, 75, 100 because the two placeholder checks are always
true. -/
theorem image_quality_characterization (face : FacePosition) :
    ((analyzeImageQuality face).isCentered = true ↔
      (jsAbs (face.x + face.width / 2 - CAPTURE_WIDTH / 2) <
          CAPTURE_WIDTH * ((1 : ℚ) / 10) ∧
        jsAbs (face.y + face.height / 2 - CAPTURE_HEIGHT / 2) <
          CAPTURE_HEIGHT * ((1 : ℚ) / 10))) ∧
    ((analyzeImageQuality face).isRightSize = true ↔
      (MIN_FACE_SIZE ≤ face.width / CAPTURE_WIDTH ∧
        face.width / CAPTURE_WIDTH ≤ MAX_FACE_SIZE)) ∧
    (analyzeImageQuality face).score =
      25 * ([(analyzeImageQuality face).isCentered, (analyzeImageQuality face).isRightSize,
        (analyzeImageQuality face).isStraight, (analyzeImageQuality face).isSharp].count true) ∧
    ((analyzeImageQuality face).score = 0 ∨ (analyzeImageQuality face).score = 25 ∨
      (analyzeImageQuality face).score = 50 ∨ (analyzeImageQuality face).score = 75 ∨
      (analyzeImageQuality face).score = 100) := by
  refine ⟨?_, ?_, ?_, ?_⟩
  · simp [analyzeImageQuality, Bool.and_eq_true, decide_eq_true_eq]
  · simp [analyzeImageQuality, Bool.and_eq_true, decide_eq_true_eq]
  · exact (quality_score_formula _ _).1
  · rcases (quality_score_formula
        (decide (jsAbs (face.x + face.width / 2 - CAPTURE_WIDTH / 2) <
            CAPTURE_WIDTH * ((1 : ℚ) / 10)) &&
          decide (jsAbs (face.y + face.height / 2 - CAPTURE_HEIGHT / 2) <
            CAPTURE_HEIGHT * ((1 : ℚ) / 10)))
        (decide (MIN_FACE_SIZE ≤ face.width / CAPTURE_WIDTH) &&
          decide (face.width / CAPTURE_WIDTH ≤ MAX_FACE_SIZE))).2 with h | h | h <;>
      rw [show (analyzeImageQuality face).score =
        ([(analyzeImageQuality face).isCentered, (analyzeImageQuality face).isRightSize,
          (analyzeImageQuality face).isStraight, (analyzeImageQuality face).isSharp].filter
            (fun b => b)).length * 25 from rfl] <;>
      simp only [show (analyzeImageQuality face).isCentered =
          (decide (jsAbs (face.x + face.width / 2 - CAPTURE_WIDTH / 2) <
              CAPTURE_WIDTH * ((1 : ℚ) / 10)) &&
            decide (jsAbs (face.y + face.height / 2 - CAPTURE_HEIGHT / 2) <
              CAPTURE_HEIGHT * ((1 : ℚ) / 10))) from rfl,
        show (analyzeImageQuality face).isRightSize =
          (decide (MIN_FACE_SIZE ≤ face.width / CAPTURE_WIDTH) &&
            decide (face.width / CAPTURE_WIDTH ≤ MAX_FACE_SIZE)) from rfl,
        show (analyzeImageQuality face).isStraight = true from rfl,
        show (analyzeImageQuality face).isSharp = true from rfl] <;>
      omega

/-- Helper: a list with at least two elements splits off its final two
elements. -/
theorem exists_last_two (l : List FacePosition) (h : 2 ≤ l.length) :
    ∃ pre b a, l = pre ++ [b, a] := by
  cases hr : l.reverse with
  | nil =>
    rw [List.reverse_eq_nil_iff] at hr
    subst hr
    simp at h
  | cons a t =>
    cases t with
    | nil =>
      have : l = [a] := by
        rw [← List.reverse_reverse l, hr]
        rfl
      subst this
      simp at h
    | cons b t2 =>
      refine ⟨t2.reverse, b, a, ?_⟩
      rw [← List.reverse_reverse l, hr]
      simp

/-- Helper: reading the last and second-to-last elements by index. -/
theorem getD_last_two (pre : List FacePosition) (b a d : FacePosition) :
    (pre ++ [b, a]).getD ((pre ++ [b, a]).length - 1) d = a ∧
    (pre ++ [b, a]).getD ((pre ++ [b, a]).length - 2) d = b := by
  have hl : (pre ++ [b, a]).length = pre.length + 2 := by simp
  constructor
  · rw [hl, show pre.length + 2 - 1 = pre.length + 1 from rfl,
      List.getD_append_right pre [b, a] d (pre.length + 1) (by omega)]
    simp
  · rw [hl, show pre.length + 2 - 2 = pre.length by omega,
      List.getD_append_right pre [b, a] d pre.length (by omega)]
    simp

/-- Helper: one liveness update never clears the session flag. -/
theorem livenessStep_mono (s : LivenessState) (p : FacePosition)
    (h : s.isLive = true) : (livenessStep s p).isLive = true := by
  unfold livenessStep
  dsimp only
  split
  · split
    · rfl
    · exact h
  · exact h

/-- C8: one liveness update sets the session flag exactly when it was
already set or the new bounded history holds at least two samples whose
two most recent entries lie more than the movement threshold apart in
Manhattan distance; and the flag is monotonic — once set, any number of
further updates leaves it set. -/
theorem liveness_step_characterization (s : LivenessState) (p : FacePosition) :
    ((livenessStep s p).isLive = true ↔
      (s.isLive = true ∨
        ∃ pre b a, newHistoryOf s p = pre ++ [b, a] ∧
          manhattanDist a b > MOVEMENT_THRESHOLD)) ∧
    (∀ ps : List FacePosition, s.isLive = true →
      (ps.foldl livenessStep s).isLive = true) := by
  constructor
  · unfold livenessStep newHistoryOf
    dsimp only
    split
    case _ h2 =>
      split
      case _ hmov =>
        obtain ⟨pre, b, a, hdec⟩ := exists_last_two _ h2
        obtain ⟨hga, hgb⟩ := getD_last_two pre b a p
        constructor
        · intro _
          right
          refine ⟨pre, b, a, hdec, ?_⟩
          rw [hdec] at hmov
          rw [hga, hgb] at hmov
          exact hmov
        · intro _
          rfl
      case _ hmov =>
        constructor
        · intro h
          exact Or.inl h
        · rintro (h | ⟨pre, b, a, hdec, hgt⟩)
          · exact h
          · exfalso
            obtain ⟨hga, hgb⟩ := getD_last_two pre b a p
            rw [hdec] at hmov
            rw [hga, hgb] at hmov
            exact hmov hgt
    case _ h2 =>
      constructor
      · intro h
        exact Or.inl h
      · rintro (h | ⟨pre, b, a, hdec, hgt⟩)
        · exact h
        · exfalso
          apply h2
          rw [hdec]
          simp
  · intro ps
    induction ps generalizing s with
    | nil => exact fun h => h
    | cons q qs ih => exact fun h => ih _ (livenessStep_mono s q h)

/-- C8 (witness): two widely displaced samples set the flag, and the
monotonicity part of the characterization keeps it set across twenty
further near-identical samples. -/
theorem liveness_monotonic_witness :
    sampleLiveState.isLive = true ∧
    ((List.replicate 20 stillSample).foldl livenessStep sampleLiveState).isLive = true := by
  have hlive : sampleLiveState.isLive = true := by
    norm_num [sampleLiveState, livenessStep, sliceLast, jsAbs, List.getD,
      MOVEMENT_HISTORY_LENGTH, MOVEMENT_THRESHOLD]
  have h := liveness_step_characterization sampleLiveState stillSample
  exact ⟨hlive, h.2 (List.replicate 20 stillSample) hlive⟩
